import Mathlib

/-!
Shallow embedding of the expense-forecasting engine of backend/api_server.py
(function predict_expenses, lines 35-147), over exact rational arithmetic.
The trained per-category model bank and the standard-deviation function of
pandas (whose value is irrational) are kept as abstract parameters; every
other step of the computation is embedded as an executable definition.
-/

namespace ExpenseForecast

/-- The fixed list of 8 expense categories (EXPENSE_CATEGORIES, lines 30-33). -/
def EXPENSE_CATEGORIES : List String :=
  ["Groceries", "Transportation", "Entertainment", "Dining Out",
   "Utilities", "Shopping", "Healthcare", "Subscriptions"]

/-- A year-month identifier, the parsed form of a "YYYY-MM" month string. -/
structure Month where
  year : Nat
  month : Nat
deriving DecidableEq

/-- One monthly record: a month plus per-category amounts.  `amounts c = none`
models a missing key, a NaN, or a non-numeric value, all of which the code
coerces to 0 via fillna and pd.to_numeric with coercion (lines 62, 70, 82). -/
structure MonthlyRecord where
  month : Month
  amounts : String → Option ℚ

/-- Numeric coercion of one cell: missing or non-numeric becomes 0. -/
def coerced (r : MonthlyRecord) (cat : String) : ℚ :=
  (r.amounts cat).getD 0

/-- Sort key of a record: well-formed "YYYY-MM" strings compare like
year*100+month. -/
def monthKey (m : Month) : Nat := m.year * 100 + m.month

/-- The comparison used by sort_values on the month column (line 85). -/
def monthLE (a b : MonthlyRecord) : Prop := monthKey a.month ≤ monthKey b.month

instance : DecidableRel monthLE := fun _ _ => Nat.decLe _ _

instance : IsTotal MonthlyRecord monthLE := ⟨fun _ _ => Nat.le_total _ _⟩

instance : IsTrans MonthlyRecord monthLE := ⟨fun _ _ _ => Nat.le_trans⟩

/-- Line 85: sort the history ascending by month. -/
def sortHistory (h : List MonthlyRecord) : List MonthlyRecord :=
  List.insertionSort monthLE h

/-- A category column of the sorted frame, after numeric coercion. -/
def columnValues (h : List MonthlyRecord) (cat : String) : List ℚ :=
  (sortHistory h).map (fun r => coerced r cat)

/-- df[cat].sum() (order-independent, hence computed from the sorted frame). -/
def colSum (h : List MonthlyRecord) (cat : String) : ℚ :=
  (columnValues h cat).sum

/-- df[cat].mean(): column sum divided by the row count. -/
def colMean (h : List MonthlyRecord) (cat : String) : ℚ :=
  colSum h cat / (h.length : ℚ)

/-- Line 71: the user has used a category iff its coerced column sum is
strictly positive. -/
def isActive (h : List MonthlyRecord) (cat : String) : Bool :=
  decide (0 < colSum h cat)

/-- Round a rational to the nearest integer, ties to even (Python round). -/
def roundHalfEven (q : ℚ) : ℤ :=
  let f : ℤ := ⌊q⌋
  if q - f < 1/2 then f
  else if 1/2 < q - f then f + 1
  else if f % 2 = 0 then f else f + 1

/-- round(x, 2): round to 2 decimal places. -/
def round2 (q : ℚ) : ℚ := (roundHalfEven (q * 100) : ℚ) / 100

/-- The fixed-schema feature vector: target month number plus, per category,
(lag1, lag2, lag3, rolling_avg_3) (lines 91-104). -/
structure Features where
  month_num : Nat
  catFeatures : List (String × ℚ × ℚ × ℚ × ℚ)

/-- Fallback record for last-row access on an empty frame; never reached when
the history has length at least 3. -/
def defaultRecord : MonthlyRecord := ⟨⟨0, 1⟩, fun _ => none⟩

/-- Line 95: next month number = (calendar month of the last row % 12) + 1. -/
def nextMonthNum (df : List MonthlyRecord) : Nat :=
  ((df.getLastD defaultRecord).month.month % 12) + 1

/-- values[-k] when at least k values exist, else 0 (lines 101-103). -/
def lagFeature (values : List ℚ) (k : Nat) : ℚ :=
  if k ≤ values.length then values.getD (values.length - k) 0 else 0

/-- np.mean(values) (line 104). -/
def rollingAvg (values : List ℚ) : ℚ := values.sum / (values.length : ℚ)

/-- Lines 88-104: build the feature vector from the sorted frame. -/
def buildFeatures (df : List MonthlyRecord) : Features :=
  let last3 := df.drop (df.length - 3)
  { month_num := nextMonthNum df
    catFeatures := EXPENSE_CATEGORIES.map (fun c =>
      let values := last3.map (fun r => coerced r c)
      (c, lagFeature values 1, lagFeature values 2, lagFeature values 3,
        rollingAvg values)) }

/-- Lines 111-121: per-category predictions.  The model bank (scaler composed
with regressor, per category) is the abstract parameter `model`; a category
the user has never used is forced to 0 without consulting the model. -/
def predictCategories (model : String → Features → ℚ) (h : List MonthlyRecord) :
    List (String × ℚ) :=
  let F := buildFeatures (sortHistory h)
  EXPENSE_CATEGORIES.map (fun c =>
    (c, if isActive h c then max 0 (round2 (model c F)) else 0))

/-- Line 131: coefficient of variation of a category column, with the pandas
standard deviation abstract. -/
def coeffVar (std : List ℚ → ℚ) (h : List MonthlyRecord) (cat : String) : ℚ :=
  std (columnValues h cat) / (colMean h cat + 1/1000000)

/-- Lines 128-132: the CVs of the categories with positive column sum. -/
def categoryCVs (std : List ℚ → ℚ) (h : List MonthlyRecord) : List ℚ :=
  (EXPENSE_CATEGORIES.filter (fun c => isActive h c)).map (coeffVar std h)

/-- np.mean(category_variances) (line 135). -/
def avgCV (std : List ℚ → ℚ) (h : List MonthlyRecord) : ℚ :=
  (categoryCVs std h).sum / ((categoryCVs std h).length : ℚ)

/-- Lines 124-139: heuristic confidence label. -/
def estimateConfidence (std : List ℚ → ℚ) (h : List MonthlyRecord) : String :=
  if 6 ≤ h.length then
    if (categoryCVs std h).isEmpty then "medium"
    else if avgCV std h < 3/10 then "high"
    else if 6/10 < avgCV std h then "low"
    else "medium"
  else "medium"

/-- Numeric rank of a confidence label, ordering low < medium < high. -/
def confRank (s : String) : Nat :=
  if s = "high" then 2 else if s = "medium" then 1 else 0

/-- Zero-padded two-digit formatting of the month number (line 146). -/
def pad2 (n : Nat) : String := if n < 10 then "0" ++ toString n else toString n

/-- Line 146: the next_month label.  The year component is taken from the last
historical month unchanged; it is NOT incremented when the month wraps. -/
def nextMonthLabel (df : List MonthlyRecord) : String :=
  toString (df.getLastD defaultRecord).month.year ++ "-" ++ pad2 (nextMonthNum df)

/-- The returned dictionary; optional fields model keys present in only one of
the two result shapes (lines 51-56 versus 141-147). -/
structure ForecastResult where
  predictions : List (String × ℚ)
  total : ℚ
  confidence : String
  message : Option String
  history_months : Option Nat
  next_month : Option String

/-- predict_expenses (lines 35-147), parametric in the loaded model bank and
in the standard-deviation function. -/
def predict_expenses (model : String → Features → ℚ) (std : List ℚ → ℚ)
    (user_history : List MonthlyRecord) : ForecastResult :=
  if user_history.length < 3 then
    { predictions := EXPENSE_CATEGORIES.map (fun c => (c, 0))
      total := 0
      confidence := "low"
      message := some "Need at least 3 months of history for accurate predictions"
      history_months := none
      next_month := none }
  else
    let preds := predictCategories model user_history
    { predictions := preds
      total := round2 ((preds.map Prod.snd).sum)
      confidence := estimateConfidence std user_history
      message := none
      history_months := some user_history.length
      next_month := some (nextMonthLabel (sortHistory user_history)) }

/-! Concrete fixtures: a trivial model bank and standard deviation, and small
concrete histories used to witness the theorems below on explicit inputs. -/

/-- A model bank that predicts 0 for every category. -/
def mZero : String → Features → ℚ := fun _ _ => 0

/-- A standard-deviation function that returns 0 on every column. -/
def sZero : List ℚ → ℚ := fun _ => 0

/-- A record spending `g` on Groceries and nothing elsewhere. -/
def grocRecord (y m : Nat) (g : ℚ) : MonthlyRecord :=
  ⟨⟨y, m⟩, fun c => if c = "Groceries" then some g else none⟩

/-- A record with no amounts at all. -/
def emptyRecord (y m : Nat) : MonthlyRecord := ⟨⟨y, m⟩, fun _ => none⟩

/-- Two months of history: below the 3-month minimum. -/
def hist2 : List MonthlyRecord := [grocRecord 2024 1 10, grocRecord 2024 2 10]

/-- Three months of Groceries-only history. -/
def hist3 : List MonthlyRecord :=
  [grocRecord 2024 1 300, grocRecord 2024 2 310, grocRecord 2024 3 320]

/-- Six months of Groceries-only history. -/
def hist6 : List MonthlyRecord :=
  [grocRecord 2024 1 10, grocRecord 2024 2 10, grocRecord 2024 3 10,
   grocRecord 2024 4 10, grocRecord 2024 5 10, grocRecord 2024 6 10]

/-- Three months ending in December 2024. -/
def histDec : List MonthlyRecord :=
  [grocRecord 2024 10 10, grocRecord 2024 11 10, grocRecord 2024 12 10]

/-- Six months with every amount missing (no active category). -/
def histNone6 : List MonthlyRecord :=
  [emptyRecord 2024 1, emptyRecord 2024 2, emptyRecord 2024 3,
   emptyRecord 2024 4, emptyRecord 2024 5, emptyRecord 2024 6]

/-- Looking a key up in an association list built by pairing each key of `l`
with `f` of that key returns `some (f c)` for every `c` in `l`. -/
theorem lookup_map_pair {β : Type} (f : String → β) :
    ∀ (l : List String) (c : String), c ∈ l →
      (l.map (fun x => (x, f x))).lookup c = some (f c) := by
  intro l
  induction l with
  | nil => intro c hc; cases hc
  | cons a t ih =>
    intro c hc
    by_cases hca : c = a
    · subst hca; simp [List.lookup]
    · have hct : c ∈ t := by
        rcases List.mem_cons.mp hc with h1 | h1
        · exact absurd h1 hca
        · exact h1
      have hbeq : (c == a) = false := by simp [hca]
      simp only [List.lookup, hbeq]
      exact ih c hct

/-- C1: for every history with fewer than 3 records, the forecast returns the
degenerate result as a normal value: every category's prediction is 0, the
total is 0, confidence is "low", and the explanatory message is included. -/
theorem C1_short_history_default (model : String → Features → ℚ)
    (std : List ℚ → ℚ) (h : List MonthlyRecord) (hlen : h.length < 3) :
    (∀ cat ∈ EXPENSE_CATEGORIES,
        (predict_expenses model std h).predictions.lookup cat = some 0)
    ∧ (predict_expenses model std h).total = 0
    ∧ (predict_expenses model std h).confidence = "low"
    ∧ (predict_expenses model std h).message
        = some "Need at least 3 months of history for accurate predictions" := by
  refine ⟨fun cat hc => ?_, ?_, ?_, ?_⟩
  · simp only [predict_expenses, if_pos hlen]
    exact lookup_map_pair (fun _ => (0 : ℚ)) EXPENSE_CATEGORIES cat hc
  · simp [predict_expenses, if_pos hlen]
  · simp [predict_expenses, if_pos hlen]
  · simp [predict_expenses, if_pos hlen]

/-- C1 witness: the degenerate result on a concrete 2-month history. -/
theorem C1_short_history_default_witness :
    hist2.length < 3
    ∧ (predict_expenses mZero sZero hist2).predictions.lookup "Groceries" = some 0
    ∧ (predict_expenses mZero sZero hist2).total = 0
    ∧ (predict_expenses mZero sZero hist2).confidence = "low" := by
  have hl : hist2.length < 3 := by decide
  obtain ⟨hp, ht, hc, _⟩ := C1_short_history_default mZero sZero hist2 hl
  exact ⟨hl, hp "Groceries" (by simp [EXPENSE_CATEGORIES]), ht, hc⟩

/-- C10: the degenerate result carries a message and omits the
history_months and next_month keys; every result for a history of length
at least 3 carries both keys and no message. -/
theorem C10_degenerate_shape (model : String → Features → ℚ)
    (std : List ℚ → ℚ) (h : List MonthlyRecord) :
    (h.length < 3 →
        (predict_expenses model std h).message.isSome = true
      ∧ (predict_expenses model std h).history_months = none
      ∧ (predict_expenses model std h).next_month = none)
    ∧ (3 ≤ h.length →
        (predict_expenses model std h).message = none
      ∧ (predict_expenses model std h).history_months = some h.length
      ∧ (predict_expenses model std h).next_month.isSome = true) := by
  constructor
  · intro hlt
    simp [predict_expenses, if_pos hlt]
  · intro hge
    have hlt : ¬ h.length < 3 := by omega
    simp [predict_expenses, if_neg hlt]

/-- C10 witness: the optional keys on a concrete short and a concrete long
history. -/
theorem C10_degenerate_shape_witness :
    (predict_expenses mZero sZero hist2).history_months = none
    ∧ (predict_expenses mZero sZero hist2).next_month = none
    ∧ (predict_expenses mZero sZero hist3).history_months = some 3
    ∧ (predict_expenses mZero sZero hist3).message = none := by
  obtain ⟨_, h2, h3⟩ := (C10_degenerate_shape mZero sZero hist2).1 (by decide)
  obtain ⟨m3, hm, _⟩ := (C10_degenerate_shape mZero sZero hist3).2 (by decide)
  exact ⟨h2, h3, hm, m3⟩

/-- C3: the code does NOT roll the year over when the month wraps: on a
history whose last sorted record is December 2024, the next_month label is
"2024-01", not "2025-01" as the claim requires. -/
theorem C3_no_year_rollover :
    (predict_expenses mZero sZero histDec).next_month = some "2024-01"
    ∧ (predict_expenses mZero sZero histDec).next_month ≠ some "2025-01" := by
  have h1 : (predict_expenses mZero sZero histDec).next_month = some "2024-01" := rfl
  refine ⟨h1, ?_⟩
  rw [h1]
  decide

/-- C6: the month_num feature equals (last calendar month % 12) + 1, and a
history ending in month 12 yields month_num 1. -/
theorem C6_month_num_wrap (h : List MonthlyRecord) (_hlen : 3 ≤ h.length) :
    (buildFeatures (sortHistory h)).month_num
      = ((sortHistory h).getLastD defaultRecord).month.month % 12 + 1
    ∧ (((sortHistory h).getLastD defaultRecord).month.month = 12 →
        (buildFeatures (sortHistory h)).month_num = 1) := by
  refine ⟨rfl, fun h12 => ?_⟩
  have heq : (buildFeatures (sortHistory h)).month_num
      = ((sortHistory h).getLastD defaultRecord).month.month % 12 + 1 := rfl
  rw [heq, h12]

/-- C6 witness: the December-ending history wraps to month_num 1. -/
theorem C6_month_num_wrap_witness :
    3 ≤ histDec.length
    ∧ ((sortHistory histDec).getLastD defaultRecord).month.month = 12
    ∧ (buildFeatures (sortHistory histDec)).month_num = 1 := by
  have hl : 3 ≤ histDec.length := by decide
  have h12 : ((sortHistory histDec).getLastD defaultRecord).month.month = 12 := rfl
  exact ⟨hl, h12, (C6_month_num_wrap histDec hl).2 h12⟩

/-- C8: sorting an already month-sorted history leaves it unchanged, sorting
is idempotent, and feature building is deterministic on equal input. -/
theorem C8_sort_idempotent (h : List MonthlyRecord) (_hlen : 3 ≤ h.length) :
    (List.Sorted monthLE h → sortHistory h = h)
    ∧ sortHistory (sortHistory h) = sortHistory h
    ∧ buildFeatures h = buildFeatures h := by
  refine ⟨fun hs => hs.insertionSort_eq, ?_, rfl⟩
  exact (List.sorted_insertionSort monthLE h).insertionSort_eq

/-- C8 witness: idempotent sorting on a concrete sorted 3-month history. -/
theorem C8_sort_idempotent_witness :
    List.Sorted monthLE histDec ∧ sortHistory histDec = histDec := by
  have hs : List.Sorted monthLE histDec := by decide
  exact ⟨hs, (C8_sort_idempotent histDec (by decide)).1 hs⟩

/-- The concrete 3-month history is already month-sorted. -/
theorem sortHistory_hist3 : sortHistory hist3 = hist3 :=
  (by decide : List.Sorted monthLE hist3).insertionSort_eq

/-- The concrete 6-month history is already month-sorted. -/
theorem sortHistory_hist6 : sortHistory hist6 = hist6 :=
  (by decide : List.Sorted monthLE hist6).insertionSort_eq

/-- The concrete all-missing history is already month-sorted. -/
theorem sortHistory_histNone6 : sortHistory histNone6 = histNone6 :=
  (by decide : List.Sorted monthLE histNone6).insertionSort_eq

/-- The Groceries column of the 3-month history sums to 930. -/
theorem colSum_hist3_groc : colSum hist3 "Groceries" = 930 := by
  rw [colSum, columnValues, sortHistory_hist3]
  norm_num +decide [hist3, grocRecord, coerced]

/-- The Utilities column of the 3-month history sums to 0. -/
theorem colSum_hist3_util : colSum hist3 "Utilities" = 0 := by
  rw [colSum, columnValues, sortHistory_hist3]
  norm_num +decide [hist3, grocRecord, coerced]

/-- C2: for histories of length at least 3, the prediction of a category with
non-positive coerced historical sum is exactly 0, and the prediction of a
category with positive sum is the clamped, rounded model output on the built
feature vector. -/
theorem C2_usage_mask (model : String → Features → ℚ) (std : List ℚ → ℚ)
    (h : List MonthlyRecord) (hlen : 3 ≤ h.length) :
    ∀ cat ∈ EXPENSE_CATEGORIES,
      (¬ 0 < colSum h cat →
        (predict_expenses model std h).predictions.lookup cat = some 0)
      ∧ (0 < colSum h cat →
        (predict_expenses model std h).predictions.lookup cat
          = some (max 0 (round2 (model cat (buildFeatures (sortHistory h)))))) := by
  intro cat hc
  have hlt : ¬ h.length < 3 := by omega
  have hl : (predict_expenses model std h).predictions.lookup cat
      = some (if isActive h cat then
          max 0 (round2 (model cat (buildFeatures (sortHistory h)))) else 0) := by
    simp only [predict_expenses, if_neg hlt, predictCategories]
    exact lookup_map_pair _ EXPENSE_CATEGORIES cat hc
  constructor
  · intro hn
    rw [hl]
    simp [isActive, hn]
  · intro hp
    rw [hl]
    simp [isActive, hp]

/-- C2 witness: on the Groceries-only 3-month history, the inactive
Utilities category is forced to 0 and the active Groceries category gets the
clamped rounded model output. -/
theorem C2_usage_mask_witness :
    3 ≤ hist3.length
    ∧ ¬ 0 < colSum hist3 "Utilities"
    ∧ (predict_expenses mZero sZero hist3).predictions.lookup "Utilities" = some 0
    ∧ 0 < colSum hist3 "Groceries"
    ∧ (predict_expenses mZero sZero hist3).predictions.lookup "Groceries"
        = some (max 0 (round2 (mZero "Groceries" (buildFeatures (sortHistory hist3))))) := by
  have hU : ¬ (0:ℚ) < colSum hist3 "Utilities" := by
    rw [colSum_hist3_util]; norm_num
  have hG : (0:ℚ) < colSum hist3 "Groceries" := by
    rw [colSum_hist3_groc]; norm_num
  refine ⟨by decide, hU, ?_, hG, ?_⟩
  · exact (C2_usage_mask mZero sZero hist3 (by decide) "Utilities"
      (by simp [EXPENSE_CATEGORIES])).1 hU
  · exact (C2_usage_mask mZero sZero hist3 (by decide) "Groceries"
      (by simp [EXPENSE_CATEGORIES])).2 hG

/-- C4: histories of length 3 to 5 always get confidence "medium"; for
length at least 6 with at least one active category, the average coefficient
of variation fixes the label through the 0.3 and 0.6 thresholds. -/
theorem C4_confidence_rule (model : String → Features → ℚ) (std : List ℚ → ℚ)
    (h : List MonthlyRecord) (hlen : 3 ≤ h.length) :
    (h.length ≤ 5 → (predict_expenses model std h).confidence = "medium")
    ∧ (6 ≤ h.length → categoryCVs std h ≠ [] →
        (predict_expenses model std h).confidence
          = if avgCV std h < 3/10 then "high"
            else if 6/10 < avgCV std h then "low" else "medium") := by
  have hlt : ¬ h.length < 3 := by omega
  constructor
  · intro h5
    have h6 : ¬ 6 ≤ h.length := by omega
    simp [predict_expenses, if_neg hlt, estimateConfidence, h6]
  · intro h6 hne
    have hemp : (categoryCVs std h).isEmpty = false := by
      rcases hq : categoryCVs std h with _ | ⟨a, t⟩
      · exact absurd hq hne
      · rfl
    simp [predict_expenses, if_neg hlt, estimateConfidence, h6, hemp]

/-- Only Groceries is active in the concrete 6-month history. -/
theorem activeCats_hist6 :
    EXPENSE_CATEGORIES.filter (fun c => isActive hist6 c) = ["Groceries"] := by
  simp only [EXPENSE_CATEGORIES, isActive, colSum, columnValues, sortHistory_hist6]
  norm_num +decide [hist6, grocRecord, coerced]

/-- With the zero standard deviation, the 6-month history has CV list [0]. -/
theorem categoryCVs_hist6 : categoryCVs sZero hist6 = [0] := by
  simp [categoryCVs, activeCats_hist6, coeffVar, sZero]

/-- C4 witness: "medium" at length 3, and "high" at length 6 with zero
average coefficient of variation. -/
theorem C4_confidence_rule_witness :
    hist3.length ≤ 5
    ∧ (predict_expenses mZero sZero hist3).confidence = "medium"
    ∧ 6 ≤ hist6.length
    ∧ categoryCVs sZero hist6 ≠ []
    ∧ (predict_expenses mZero sZero hist6).confidence = "high" := by
  have hne : categoryCVs sZero hist6 ≠ [] := by
    rw [categoryCVs_hist6]; simp
  have havg : avgCV sZero hist6 = 0 := by
    simp [avgCV, categoryCVs_hist6]
  have hhigh : (predict_expenses mZero sZero hist6).confidence = "high" := by
    rw [(C4_confidence_rule mZero sZero hist6 (by decide)).2 (by decide) hne, havg]
    norm_num
  exact ⟨by decide, (C4_confidence_rule mZero sZero hist3 (by decide)).1 (by decide),
    by decide, hne, hhigh⟩

/-- C9: for a history of length at least 6 in which no category has positive
coerced sum, the CV list is empty and the confidence stays "medium"; the
thresholds are never applied to an empty average. -/
theorem C9_empty_cvs_medium (model : String → Features → ℚ) (std : List ℚ → ℚ)
    (h : List MonthlyRecord) (hlen : 6 ≤ h.length)
    (hinact : ∀ c ∈ EXPENSE_CATEGORIES, ¬ 0 < colSum h c) :
    categoryCVs std h = []
    ∧ (predict_expenses model std h).confidence = "medium" := by
  have hlt : ¬ h.length < 3 := by omega
  have hfilt : EXPENSE_CATEGORIES.filter (fun c => isActive h c) = [] := by
    apply List.filter_eq_nil_iff.mpr
    intro a ha
    simp [isActive, hinact a ha]
  have hcvs : categoryCVs std h = [] := by simp [categoryCVs, hfilt]
  refine ⟨hcvs, ?_⟩
  simp [predict_expenses, if_neg hlt, estimateConfidence, hlen, hcvs]

/-- C9 witness: the all-missing 6-month history keeps confidence "medium". -/
theorem C9_empty_cvs_medium_witness :
    6 ≤ histNone6.length
    ∧ ¬ 0 < colSum histNone6 "Groceries"
    ∧ (predict_expenses mZero sZero histNone6).confidence = "medium" := by
  have hall : ∀ c ∈ EXPENSE_CATEGORIES, ¬ 0 < colSum histNone6 c := by
    intro c hc
    rw [colSum, columnValues, sortHistory_histNone6]
    norm_num [histNone6, emptyRecord, coerced]
  exact ⟨by decide, hall "Groceries" (by simp [EXPENSE_CATEGORIES]),
    (C9_empty_cvs_medium mZero sZero histNone6 (by decide) hall).2⟩

/-- Rounding to 2 decimal places is the identity on integer multiples of
1/100. -/
theorem round2_cent {q : ℚ} (hq : ∃ n : ℤ, q = (n : ℚ) / 100) :
    round2 q = q := by
  obtain ⟨n, rfl⟩ := hq
  have h100 : ((n : ℚ) / 100) * 100 = (n : ℚ) := by field_simp
  have hf : ⌊(n : ℚ)⌋ = n := Int.floor_intCast n
  simp only [round2, roundHalfEven, h100, hf]
  norm_num

/-- Every per-category prediction is an integer number of cents. -/
theorem pred_cent (model : String → Features → ℚ) (h : List MonthlyRecord)
    (c : String) :
    ∃ n : ℤ, (if isActive h c then
        max 0 (round2 (model c (buildFeatures (sortHistory h)))) else 0)
      = (n : ℚ) / 100 := by
  by_cases ha : isActive h c
  · simp only [if_pos ha]
    rcases le_or_lt 0 (round2 (model c (buildFeatures (sortHistory h)))) with hle | hlt
    · exact ⟨roundHalfEven (model c (buildFeatures (sortHistory h)) * 100),
        by rw [max_eq_right hle]; rfl⟩
    · exact ⟨0, by rw [max_eq_left hlt.le]; norm_num⟩
  · exact ⟨0, by simp [if_neg ha]⟩

/-- A sum of integer cent-multiples is an integer cent-multiple. -/
theorem sum_cent :
    ∀ l : List ℚ, (∀ q ∈ l, ∃ n : ℤ, q = (n : ℚ) / 100) →
      ∃ n : ℤ, l.sum = (n : ℚ) / 100 := by
  intro l
  induction l with
  | nil => intro _; exact ⟨0, by simp⟩
  | cons a t ih =>
    intro hmem
    obtain ⟨n, hn⟩ := hmem a (List.mem_cons_self a t)
    obtain ⟨m, hm⟩ := ih (fun q hq => hmem q (List.mem_cons_of_mem a hq))
    refine ⟨n + m, ?_⟩
    rw [List.sum_cons, hn, hm]
    push_cast
    ring

/-- C5: for histories of length at least 3, the returned total equals the
plain sum of the already-rounded per-category predictions: the outer
rounding of the total changes nothing. -/
theorem C5_total_round_first (model : String → Features → ℚ)
    (std : List ℚ → ℚ) (h : List MonthlyRecord) (hlen : 3 ≤ h.length) :
    (predict_expenses model std h).total
      = ((predict_expenses model std h).predictions.map Prod.snd).sum := by
  have hlt : ¬ h.length < 3 := by omega
  have hcent : ∀ q ∈ (predictCategories model h).map Prod.snd,
      ∃ n : ℤ, q = (n : ℚ) / 100 := by
    intro q hq
    simp only [predictCategories, List.map_map, List.mem_map,
      Function.comp] at hq
    obtain ⟨c, _, hqe⟩ := hq
    exact hqe ▸ pred_cent model h c
  simp only [predict_expenses, if_neg hlt]
  exact round2_cent (sum_cent _ hcent)

/-- C5 witness: the total of the concrete 3-month Groceries history equals
the sum of its rounded predictions. -/
theorem C5_total_round_first_witness :
    3 ≤ hist3.length
    ∧ (predict_expenses mZero sZero hist3).total
        = ((predict_expenses mZero sZero hist3).predictions.map Prod.snd).sum :=
  ⟨by decide, C5_total_round_first mZero sZero hist3 (by decide)⟩

/-- C7: among equal-length histories of length at least 3 with the same
active categories, pointwise smaller coefficients of variation never give a
strictly lower confidence tier. -/
theorem C7_confidence_monotone (model : String → Features → ℚ)
    (std : List ℚ → ℚ) (h1 h2 : List MonthlyRecord) (hlen : 3 ≤ h1.length)
    (hlen12 : h1.length = h2.length)
    (hact : ∀ c ∈ EXPENSE_CATEGORIES, isActive h1 c = isActive h2 c)
    (hcv : ∀ c ∈ EXPENSE_CATEGORIES, isActive h1 c = true →
        coeffVar std h1 c ≤ coeffVar std h2 c) :
    confRank (predict_expenses model std h2).confidence
      ≤ confRank (predict_expenses model std h1).confidence := by
  have hlt1 : ¬ h1.length < 3 := by omega
  have hlt2 : ¬ h2.length < 3 := by omega
  have hc1 : (predict_expenses model std h1).confidence
      = estimateConfidence std h1 := by
    simp [predict_expenses, if_neg hlt1]
  have hc2 : (predict_expenses model std h2).confidence
      = estimateConfidence std h2 := by
    simp [predict_expenses, if_neg hlt2]
  rw [hc1, hc2]
  by_cases h6 : 6 ≤ h1.length
  · have h6' : 6 ≤ h2.length := by omega
    have hfilt : EXPENSE_CATEGORIES.filter (fun c => isActive h1 c)
        = EXPENSE_CATEGORIES.filter (fun c => isActive h2 c) :=
      List.filter_congr (fun c hc => hact c hc)
    have hcvs1 : categoryCVs std h1
        = (EXPENSE_CATEGORIES.filter (fun c => isActive h1 c)).map
            (coeffVar std h1) := rfl
    have hcvs2 : categoryCVs std h2
        = (EXPENSE_CATEGORIES.filter (fun c => isActive h1 c)).map
            (coeffVar std h2) := by
      rw [categoryCVs, ← hfilt]
    rcases hnil : EXPENSE_CATEGORIES.filter (fun c => isActive h1 c)
      with _ | ⟨a, t⟩
    · have e1 : categoryCVs std h1 = [] := by rw [hcvs1, hnil]; rfl
      have e2 : categoryCVs std h2 = [] := by rw [hcvs2, hnil]; rfl
      simp [estimateConfidence, h6, h6', e1, e2]
    · have hpt : ∀ c ∈ EXPENSE_CATEGORIES.filter (fun c => isActive h1 c),
          coeffVar std h1 c ≤ coeffVar std h2 c := by
        intro c hcmem
        have hm := List.mem_filter.mp hcmem
        exact hcv c hm.1 hm.2
      have hsum :
          ((EXPENSE_CATEGORIES.filter (fun c => isActive h1 c)).map
              (coeffVar std h1)).sum
            ≤ ((EXPENSE_CATEGORIES.filter (fun c => isActive h1 c)).map
              (coeffVar std h2)).sum :=
        List.sum_le_sum hpt
      have havg : avgCV std h1 ≤ avgCV std h2 := by
        rw [avgCV, avgCV, hcvs1, hcvs2]
        simp only [List.length_map]
        exact div_le_div_of_nonneg_right hsum (by positivity)
      have ne1 : (categoryCVs std h1).isEmpty = false := by
        rw [hcvs1, hnil]; rfl
      have ne2 : (categoryCVs std h2).isEmpty = false := by
        rw [hcvs2, hnil]; rfl
      simp only [estimateConfidence, if_pos h6, if_pos h6', ne1,
        Bool.false_eq_true, if_false, ne2]
      split_ifs <;> simp +decide [confRank] <;> linarith
  · have h6' : ¬ 6 ≤ h2.length := by omega
    simp [estimateConfidence, h6, h6']

/-- C7 witness: the monotonicity applied to a concrete pair of equal
histories with equal coefficients of variation. -/
theorem C7_confidence_monotone_witness :
    3 ≤ hist6.length
    ∧ confRank (predict_expenses mZero sZero hist6).confidence
        ≤ confRank (predict_expenses mZero sZero hist6).confidence :=
  ⟨by decide, C7_confidence_monotone mZero sZero hist6 hist6 (by decide) rfl
    (fun _ _ => rfl) (fun _ _ _ => le_refl _)⟩

end ExpenseForecast
